import Mathlib

/-!
Verification of the salesapi request pipeline (cmd/api + internal/data).

Shallow embedding of the Go sources:
* `internal/data/middleware.go` (recoverPanic, rateLimit, enableCORS,
  authenticate, requireAuthenticatedUser, requireActivatedUser,
  requirePermissions, metricsResponseWriter, metrics)
* `cmd/api/routes.go` (the composed pipeline)
* `cmd/api/context.go` (contextSetUser / contextGetUser)
* `cmd/api/server.go` (serve: graceful shutdown)
* `cmd/api/helpers.go` (background)
* `internal/data/tokens.go`, `internal/data/users.go`,
  `internal/data/permissions.go`, `internal/validator/validator.go`

Go's mutable state is passed explicitly; the mutex-protected critical
sections of the limiter are modelled as atomic steps, so an arbitrary
concurrent execution is one interleaving, i.e. one sequence of steps.
Wall-clock instants and durations are explicit parameters.  Database
access is modelled by store functions threaded through the middleware;
the pipeline state counts `GetForToken` store calls (the call-counting
stub the spec itself prescribes for testing).
-/

namespace SalesApi

/-! ## internal/validator/validator.go -/

/-- Validation errors keyed by field name (Go: `map[string]string`;
modelled as an association list, insertion order irrelevant for the
properties proved here). -/
structure Validator where
  errors : List (String × String)
deriving DecidableEq, Repr

def Validator.new : Validator := ⟨[]⟩

/-- `AddError` adds an error message for a key only if the key is absent. -/
def Validator.addError (v : Validator) (key message : String) : Validator :=
  if v.errors.any (fun p => p.1 == key) then v
  else ⟨v.errors ++ [(key, message)]⟩

/-- `Check` adds an error message if the condition is false. -/
def Validator.check (v : Validator) (condition : Bool) (key message : String) : Validator :=
  if condition then v else v.addError key message

/-- `IsValid` returns true if there are no validation errors. -/
def Validator.isValid (v : Validator) : Bool := v.errors.isEmpty

/-! ## internal/data: users, tokens, permissions -/

/-- `internal/data/users.go`: the fields of `data.User` that the
pipeline reads (`ID` for the permission lookup, `IsActive` for the
activation guard); the remaining columns are irrelevant to the claims. -/
structure User where
  id : Int
  isActive : Bool
deriving DecidableEq, Repr

/-- `data.AnonymousUser` is a distinguished pointer (`&User{}`);
`IsAnonymous` is pointer equality with it.  A request principal is
therefore either that sentinel pointer or a pointer to a concrete user. -/
inductive Principal where
  | anonymousUser : Principal
  | user (u : User) : Principal
deriving DecidableEq, Repr

/-- `User.IsAnonymous`: pointer equality with `data.AnonymousUser`. -/
def Principal.isAnonymous : Principal → Bool
  | .anonymousUser => true
  | .user _ => false

/-- Field read `user.IsActive`; the anonymous sentinel carries the zero
value `false`. -/
def Principal.isActive : Principal → Bool
  | .anonymousUser => false
  | .user u => u.isActive

/-- Field read `user.ID`; the anonymous sentinel carries the zero value `0`. -/
def Principal.id : Principal → Int
  | .anonymousUser => 0
  | .user u => u.id

/-- Scope constant `data.ScopeAuthentication`. -/
def ScopeAuthentication : String := "authentication"

/-- `internal/data/tokens.go`: `ValidateTokenPlaintext` checks the token
is non-empty and exactly 22 bytes long (Go `len` counts bytes). -/
def ValidateTokenPlaintext (v : Validator) (plaintext : String) : Validator :=
  (v.check (plaintext != "") "token" "must be provided").check
    (plaintext.utf8ByteSize == 22) "token" "must be 22 bytes long"

/-- Store access errors (`data.ErrRecordNotFound` vs any other error). -/
inductive DbErr where
  | recordNotFound : DbErr
  | other : DbErr
deriving DecidableEq, Repr

/-- A row of the `tokens` table (`data.Token`; the plaintext is never
stored, only the hash column). -/
structure Token where
  plaintext : String
  hash : List Nat
  userID : Int
  expiresAt : ℚ
  scope : String
deriving DecidableEq, Repr

/-- The relational state visible to `GetForToken`: the `users` and
`tokens` tables. -/
structure DB where
  users : List User
  tokens : List Token
deriving DecidableEq, Repr

/-- `generateToken` (tokens.go): builds a token whose plaintext is the
base64url encoding of 16 random bytes and whose stored hash is the
SHA-256 of that plaintext.  The randomness is the `plaintext` argument
and SHA-256 is the abstract byte function `sha256`. -/
def generateToken (sha256 : String → List Nat) (now : ℚ) (plaintext : String)
    (userID : Int) (ttl : ℚ) (scope : String) : Token :=
  { plaintext := plaintext
    hash := sha256 plaintext
    userID := userID
    expiresAt := now + ttl
    scope := scope }

/-- `TokenModel.Insert`: `INSERT INTO tokens (hash, user_id, expires_at, scope)`. -/
def tokenInsert (db : DB) (token : Token) : DB :=
  { db with tokens := db.tokens ++ [token] }

/-- `TokenModel.DeleteAllForUser`: `DELETE FROM tokens WHERE scope = $1 AND user_id = $2`. -/
def deleteAllForUser (db : DB) (scope : String) (userID : Int) : DB :=
  { db with tokens := db.tokens.filter (fun t => !(t.scope == scope && t.userID == userID)) }

/-- `UserModel.GetForToken` (users.go): hashes the plaintext, joins
`users` with `tokens` on `user_id`, filtered by
`scope = $1 AND hash = $2 AND expires_at > $3`, and returns the first
row or `ErrRecordNotFound`. -/
def GetForToken (sha256 : String → List Nat) (db : DB)
    (tokenScope tokenPlaintext : String) (now : ℚ) : Except DbErr User :=
  let tokenHash := sha256 tokenPlaintext
  let rows := db.tokens.filter
    (fun t => t.scope == tokenScope && t.hash == tokenHash && decide (now < t.expiresAt))
  match (rows.filterMap (fun t => db.users.find? (fun u => u.id == t.userID))).head? with
  | some user => .ok user
  | none => .error .recordNotFound

/-- `Permissions.Includes` (permissions.go): `slices.Contains(p, code)` —
exact string membership, no hierarchy, no wildcards. -/
def permissionsIncludes (p : List String) (code : String) : Bool :=
  p.contains code

/-! ## Requests, responses and pipeline state -/

/-- The parts of `*http.Request` the pipeline reads, plus the
execution-scoped context value set by `contextSetUser` (absent before
`authenticate` runs). -/
structure Request where
  authorizationHeader : String
  origin : String
  method : String
  accessControlRequestMethod : String
  remoteAddr : String
  ctxUser : Option Principal
deriving DecidableEq, Repr

/-- The observable response: the first status code written, the body
message, and whether a `Connection: close` header was set. -/
structure Response where
  status : Nat
  message : String
  connectionClose : Bool
deriving DecidableEq, Repr

/-- A handler invocation either writes a response or raises a panic that
propagates to the enclosing middleware. -/
inductive HResult where
  | response (resp : Response) : HResult
  | panicked (msg : String) : HResult
deriving DecidableEq, Repr

def HResult.isPanicked : HResult → Bool
  | .response _ => false
  | .panicked _ => true

/-- `golang.org/x/time/rate.Limiter`: token bucket with refill rate
`limit` tokens/second up to `burst`; `tokens` at instant `lastEvent`. -/
structure RateLimiter where
  limit : ℚ
  burst : ℕ
  tokens : ℚ
  lastEvent : ℚ
deriving DecidableEq, Repr

/-- `rate.NewLimiter(r, b)`: a fresh limiter holds a full bucket. -/
def RateLimiter.new (r : ℚ) (b : ℕ) (now : ℚ) : RateLimiter :=
  ⟨r, b, (b : ℚ), now⟩

/-- Tokens available at `now` after continuous refill, capped at burst. -/
def RateLimiter.advancedTokens (l : RateLimiter) (now : ℚ) : ℚ :=
  min (l.burst : ℚ) (l.tokens + (now - l.lastEvent) * l.limit)

/-- `Limiter.Allow()`: consume one token if available; on refusal the
limiter state is not committed. -/
def RateLimiter.allow (l : RateLimiter) (now : ℚ) : Bool × RateLimiter :=
  let t := l.advancedTokens now
  if 1 ≤ t then (true, { l with tokens := t - 1, lastEvent := now })
  else (false, l)

/-- An entry of the limiter's `clients` map (middleware.go `client`). -/
structure ClientEntry where
  limiter : RateLimiter
  lastSeen : ℚ
deriving DecidableEq, Repr

def lookupClient : List (String × ClientEntry) → String → Option ClientEntry
  | [], _ => none
  | (k, v) :: rest, ip => if k == ip then some v else lookupClient rest ip

def setClient : List (String × ClientEntry) → String → ClientEntry → List (String × ClientEntry)
  | [], ip, e => [(ip, e)]
  | (k, v) :: rest, ip, e =>
    if k == ip then (k, e) :: rest else (k, v) :: setClient rest ip e

/-- The `app.config.limiter` fields read by `rateLimit`. -/
structure LimiterConfig where
  enabled : Bool
  rps : ℚ
  burst : ℕ
deriving DecidableEq, Repr

/-- Association list of per-status response counters
(expvar map `total_responses_sent_by_status`, keyed by the status code). -/
def bumpStatus : List (Nat × Nat) → Nat → List (Nat × Nat)
  | [], c => [(c, 1)]
  | (k, v) :: rest, c =>
    if k == c then (k, v + 1) :: rest else (k, v) :: bumpStatus rest c

def statusCount : List (Nat × Nat) → Nat → Nat
  | [], _ => 0
  | (k, v) :: rest, c => if k == c then v else statusCount rest c

/-- The mutable state shared across requests: the limiter's clients map,
the expvar metrics counters, and the number of `GetForToken` store
calls issued (the call-counting credential-store stub). -/
structure PipelineState where
  clients : List (String × ClientEntry)
  totalRequestsReceived : Nat
  totalResponsesSent : Nat
  totalResponsesSentByStatus : List (Nat × Nat)
  totalProcessingTimeMicroseconds : Nat
  getForTokenCalls : Nat
deriving DecidableEq, Repr

/-- A request handler: middleware stages and route handlers alike. -/
abbrev Handler := Request → PipelineState → HResult × PipelineState

/-! ## cmd/api/errors.go: the response helpers the pipeline emits -/

def serverErrorResponse : Response :=
  ⟨500, "the server encountered a problem and could not process your request", false⟩

def rateLimitExceededResponse : Response :=
  ⟨429, "rate limit exceeded", false⟩

def invalidAuthenticationTokenResponse : Response :=
  ⟨401, "invalid or missing authentication token", false⟩

def authenticationRequiredResponse : Response :=
  ⟨401, "you must be authenticated to access this resource", false⟩

def inactiveAccountResponse : Response :=
  ⟨403, "your user account must be activated to access this resource", false⟩

def notPermittedResponse : Response :=
  ⟨403, "you do not have the necessary permissions to access this resource", false⟩

/-- The bare `w.WriteHeader(http.StatusOK)` a CORS preflight receives. -/
def preflightOKResponse : Response := ⟨200, "", false⟩

/-! ## cmd/api/context.go -/

/-- `contextSetUser`: attach the principal to the request's context. -/
def contextSetUser (r : Request) (user : Principal) : Request :=
  { r with ctxUser := some user }

/-- `contextGetUser`: read the principal from the request context; the
failed type assertion panics with this exact message when absent. -/
def contextGetUser (r : Request) : Except String Principal :=
  match r.ctxUser with
  | some user => .ok user
  | none => .error "missing user value in context"

/-! ## internal/data/middleware.go: the middleware stages -/

/-- `strings.Split` with a one-character separator: splits at every
occurrence, keeping empty pieces, so the result has one more element
than there are separators (Go: `strings.Split(s, " ")`). -/
def stringsSplitAux (sep : Char) : List Char → List Char → List String
  | [], acc => [String.mk acc.reverse]
  | c :: rest, acc =>
    if c = sep then String.mk acc.reverse :: stringsSplitAux sep rest []
    else stringsSplitAux sep rest (c :: acc)

def stringsSplit (str : String) (sep : Char) : List String :=
  stringsSplitAux sep str.data []

/-- `recoverPanic`: a deferred `recover()` converts any panic below into
a 500 response after setting `Connection: close`. -/
def recoverPanic (next : Handler) : Handler := fun r s =>
  match next r s with
  | (.panicked _, s') => (.response { serverErrorResponse with connectionClose := true }, s')
  | ok => ok

/-- `enableCORS`: sets the `Vary` headers, and when the `Origin` header
is non-empty and matches a trusted origin, handles a preflight request
(`OPTIONS` with a non-empty `Access-Control-Request-Method`) by
responding `200 OK` immediately; every other request continues down the
chain.  The loop over `trustedOrigins` returns at the first matching
origin when the preflight conditions hold, which is equivalent to the
membership test because those conditions do not depend on the loop
variable. -/
def enableCORS (trustedOrigins : List String) (next : Handler) : Handler := fun r s =>
  let origin := r.origin
  if origin ≠ "" ∧ trustedOrigins.contains origin ∧
      r.method = "OPTIONS" ∧ r.accessControlRequestMethod ≠ "" then
    (.response preflightOKResponse, s)
  else next r s

/-- The mutex-protected critical section of `rateLimit`, as one atomic
step: look up or create the client's bucket, stamp `lastSeen`, and
consume a token via `Allow`. -/
def rateLimitAdmit (cfg : LimiterConfig) (now : ℚ) (ip : String)
    (clients : List (String × ClientEntry)) : Bool × List (String × ClientEntry) :=
  let entry :=
    match lookupClient clients ip with
    | some c => c
    | none => { limiter := RateLimiter.new cfg.rps cfg.burst now, lastSeen := 0 }
  let entry := { entry with lastSeen := now }
  let (allowed, lim) := entry.limiter.allow now
  (allowed, setClient clients ip { entry with limiter := lim })

/-- `rateLimit`: when enabled, runs the critical section on the
client's identity (`r.RemoteAddr`); refusal yields the 429 response.
When disabled it is a transparent pass-through.  `now` is the instant
`time.Now()` observed inside the critical section. -/
def rateLimit (cfg : LimiterConfig) (now : ℚ) (next : Handler) : Handler := fun r s =>
  if cfg.enabled then
    let (allowed, clients) := rateLimitAdmit cfg now r.remoteAddr s.clients
    let s' := { s with clients := clients }
    if allowed then next r s'
    else (.response rateLimitExceededResponse, s')
  else next r s

/-- `authenticate`: absent header → proceed as the anonymous principal;
malformed header (wrong part count or scheme) or a plaintext failing
`ValidateTokenPlaintext` → 401 before any store access; otherwise
`GetForToken(ScopeAuthentication, token)` is issued (counted in
`getForTokenCalls`), mapping `ErrRecordNotFound` to 401, any other
store error to 500, and a match to the principal attached via
`contextSetUser`. -/
def authenticate (store : String → String → Except DbErr User) (next : Handler) : Handler :=
  fun r s =>
    let authorizationHeader := r.authorizationHeader
    if authorizationHeader = "" then
      next (contextSetUser r .anonymousUser) s
    else
      let headerParts := stringsSplit authorizationHeader ' '
      if headerParts.length ≠ 2 ∨ headerParts.getD 0 "" ≠ "Bearer" then
        (.response invalidAuthenticationTokenResponse, s)
      else
        let tokenPlaintext := headerParts.getD 1 ""
        if (ValidateTokenPlaintext Validator.new tokenPlaintext).isValid = false then
          (.response invalidAuthenticationTokenResponse, s)
        else
          let s1 := { s with getForTokenCalls := s.getForTokenCalls + 1 }
          match store ScopeAuthentication tokenPlaintext with
          | .error .recordNotFound => (.response invalidAuthenticationTokenResponse, s1)
          | .error .other => (.response serverErrorResponse, s1)
          | .ok user => next (contextSetUser r (.user user)) s1

/-- `requireAuthenticatedUser`: 401 when the context principal is the
anonymous sentinel. -/
def requireAuthenticatedUser (next : Handler) : Handler := fun r s =>
  match contextGetUser r with
  | .error msg => (.panicked msg, s)
  | .ok user =>
    if user.isAnonymous then (.response authenticationRequiredResponse, s)
    else next r s

/-- `requireActivatedUser`: behind the authentication guard, 403 when
the principal is not active. -/
def requireActivatedUser (next : Handler) : Handler :=
  requireAuthenticatedUser (fun r s =>
    match contextGetUser r with
    | .error msg => (.panicked msg, s)
    | .ok user =>
      if user.isActive = false then (.response inactiveAccountResponse, s)
      else next r s)

/-- `requirePermissions(code)`: behind the activation guard, fetches the
principal's permission set fresh via `GetAllForUser` (the `permStore`
argument is the current store contents — no cache) and checks exact
membership of `code`; a store error yields 500, absence yields 403,
presence invokes the wrapped handler. -/
def requirePermissions (permStore : Int → Except DbErr (List String))
    (requiredPermissions : String) (next : Handler) : Handler :=
  requireActivatedUser (fun r s =>
    match contextGetUser r with
    | .error msg => (.panicked msg, s)
    | .ok user =>
      match permStore user.id with
      | .error _ => (.response serverErrorResponse, s)
      | .ok hasPermissions =>
        if permissionsIncludes hasPermissions requiredPermissions = false then
          (.response notPermittedResponse, s)
        else next r s)

/-! ## metricsResponseWriter (middleware.go) -/

/-- The wrapper around `http.ResponseWriter` that captures the first
status code written (defaulting to `200 OK`). -/
structure MetricsResponseWriter where
  statusCode : Nat
  headerWritten : Bool
deriving DecidableEq, Repr

/-- `newMetricsResponseWriter`: default status code 200, header not yet
written. -/
def newMetricsResponseWriter : MetricsResponseWriter :=
  { statusCode := 200, headerWritten := false }

/-- `WriteHeader`: delegates, then captures the code only on the first
header write. -/
def MetricsResponseWriter.writeHeader (mw : MetricsResponseWriter) (code : Nat) :
    MetricsResponseWriter :=
  if mw.headerWritten = false then { statusCode := code, headerWritten := true }
  else mw

/-- `Write`: a body write marks the header as written (an implicit 200
if no header was written yet) and delegates. -/
def MetricsResponseWriter.write (mw : MetricsResponseWriter) : MetricsResponseWriter :=
  { mw with headerWritten := true }

/-- The interaction of an inner handler with the response writer. -/
inductive WriterOp where
  | writeHeader (code : Nat) : WriterOp
  | write : WriterOp
deriving DecidableEq, Repr

def MetricsResponseWriter.applyOp (mw : MetricsResponseWriter) : WriterOp → MetricsResponseWriter
  | .writeHeader code => mw.writeHeader code
  | .write => mw.write

def writerRunOps (ops : List WriterOp) (mw : MetricsResponseWriter) : MetricsResponseWriter :=
  ops.foldl MetricsResponseWriter.applyOp mw

/-- `metrics`: counts the request, runs the inner chain against the
wrapping response writer, and on completion counts the response, the
recorded status code, and the elapsed processing time (`elapsed`
microseconds, the `time.Since(start)` observation).  A panic below
skips the completion counters and propagates. -/
def metrics (elapsed : Nat) (next : Handler) : Handler := fun r s =>
  let s1 := { s with totalRequestsReceived := s.totalRequestsReceived + 1 }
  match next r s1 with
  | (.panicked msg, s2) => (.panicked msg, s2)
  | (.response resp, s2) =>
    (.response resp,
      { s2 with
        totalResponsesSent := s2.totalResponsesSent + 1
        totalResponsesSentByStatus := bumpStatus s2.totalResponsesSentByStatus resp.status
        totalProcessingTimeMicroseconds := s2.totalProcessingTimeMicroseconds + elapsed })

/-! ## cmd/api/routes.go: the composed pipeline -/

/-- `routes()` line 59:
`app.recoverPanic(app.enableCORS(app.metrics(app.rateLimit(app.authenticate(router)))))`. -/
def routes (cfg : LimiterConfig) (trustedOrigins : List String)
    (store : String → String → Except DbErr User) (now : ℚ) (elapsed : Nat)
    (router : Handler) : Handler :=
  recoverPanic (enableCORS trustedOrigins (metrics elapsed (rateLimit cfg now (authenticate store router))))

/-! ## cmd/api/helpers.go: the background task runner -/

/-- The process state a background goroutine touches: the `sync.WaitGroup`
counter (`app.wg`) and the logger's output. -/
structure GoState where
  wg : Nat
  logs : List String
deriving DecidableEq, Repr

/-- The log line emitted by the recovery defer (`app.logger.Error` with
the recovered value as attribute). -/
def backgroundPanicLog (msg : String) : String :=
  "panic recovered in background goroutine: " ++ msg

/-- The body of the goroutine launched by `background`: run `fn`
(outcome: normal return or a panic carrying a message), then the
deferred functions in LIFO order — first the `recover()` defer, which
intercepts and logs any panic, then `wg.Done()`.  Returns the final
state and any panic escaping the goroutine (which would crash the
process). -/
def backgroundGoroutineBody (fn : Except String Unit) (s : GoState) :
    GoState × Option String :=
  let (panicVal, s1) : Option String × GoState :=
    match fn with
    | .ok _ => (none, s)
    | .error msg => (some msg, s)
  let (s2, escaping) : GoState × Option String :=
    match panicVal with
    | some msg => ({ s1 with logs := s1.logs ++ [backgroundPanicLog msg] }, none)
    | none => (s1, none)
  let s3 := { s2 with wg := s2.wg - 1 }
  (s3, escaping)

/-- The observable effects of one `app.background(fn)` call. -/
structure BackgroundRun where
  stateAtLaunch : GoState
  finalState : GoState
  escapingPanic : Option String
deriving DecidableEq, Repr

/-- `background` (helpers.go): `app.wg.Add(1)` first, then the goroutine
is launched against the incremented state and eventually completes. -/
def background (s : GoState) (fn : Except String Unit) : BackgroundRun :=
  let sAdd := { s with wg := s.wg + 1 }
  let (sEnd, escaping) := backgroundGoroutineBody fn sAdd
  { stateAtLaunch := sAdd, finalState := sEnd, escapingPanic := escaping }

/-! ## cmd/api/server.go: serve() and graceful shutdown

`serve` starts the listener and a shutdown goroutine.  On a termination
signal the goroutine calls `srv.Shutdown` with a 30-second deadline;
if that errors (grace window elapsed) the error is sent on the
`shutdown` channel and `serve` returns it; otherwise the goroutine
blocks in `app.wg.Wait()` until the background counter reaches zero and
only then sends `nil`, letting `serve` return success.  The channel
synchronisation is modelled as a small-step machine whose atomic steps
are the commented transitions. -/

inductive ShutdownError where
  | deadlineExceeded : ShutdownError
deriving DecidableEq, Repr

inductive ServePhase where
  /-- `ListenAndServe` running, no signal yet. -/
  | listening : ServePhase
  /-- Signal received, `srv.Shutdown(ctx)` in progress. -/
  | shuttingDown : ServePhase
  /-- `Shutdown` returned nil inside the grace window; `app.wg.Wait()`
  in progress. -/
  | waitingTasks : ServePhase
  /-- `serve()` returned: `none` is the nil (Stopped) outcome, `some e`
  the propagated shutdown error. -/
  | returned (result : Option ShutdownError) : ServePhase
deriving DecidableEq, Repr

structure ServeState where
  phase : ServePhase
  /-- The `app.wg` counter: background tasks still registered. -/
  outstanding : Nat
deriving DecidableEq, Repr

/-- Atomic transitions of `serve` interleaved with background-task
completions. -/
inductive ServeStep : ServeState → ServeState → Prop where
  /-- A request handler registers a background task (only while the
  listener still accepts requests). -/
  | taskRun (n : Nat) :
      ServeStep ⟨.listening, n⟩ ⟨.listening, n + 1⟩
  /-- A background goroutine completes: deferred `wg.Done()`. -/
  | taskDone (ph : ServePhase) (n : Nat) :
      ServeStep ⟨ph, n + 1⟩ ⟨ph, n⟩
  /-- SIGINT/SIGTERM received by the shutdown goroutine. -/
  | signal (n : Nat) :
      ServeStep ⟨.listening, n⟩ ⟨.shuttingDown, n⟩
  /-- `srv.Shutdown(ctx)` drained in-flight connections inside the
  30-second grace window and returned nil. -/
  | shutdownOk (n : Nat) :
      ServeStep ⟨.shuttingDown, n⟩ ⟨.waitingTasks, n⟩
  /-- The grace window elapsed first: `srv.Shutdown` returned an error,
  which is sent on the channel and returned by `serve`. -/
  | shutdownFail (n : Nat) :
      ServeStep ⟨.shuttingDown, n⟩ ⟨.returned (some .deadlineExceeded), n⟩
  /-- `app.wg.Wait()` unblocks only at counter zero; `shutdown <- nil`
  and `serve` returns nil. -/
  | finish :
      ServeStep ⟨.waitingTasks, 0⟩ ⟨.returned none, 0⟩

/-- Executions of `serve`: reflexive-transitive closure of the steps. -/
inductive ServeReach : ServeState → ServeState → Prop where
  | refl (s : ServeState) : ServeReach s s
  | tail {s t u : ServeState} : ServeReach s t → ServeStep t u → ServeReach s u

/-! ## The C5 admission counter

`countAdmitted cfg ip s times` drives one `rateLimit` admission check
through the middleware per instant in `times`, all from the same
identity `ip`, against a probe handler, and counts how many requests
were admitted (i.e. reached the probe).  Under the limiter's mutex any
concurrent execution of N admission checks is exactly one such
sequence. -/

/-- A probe route handler: answers 200 so admissions are observable. -/
def admittedProbe : Handler := fun _ s => (.response preflightOKResponse, s)

/-- A request from identity `ip` (only `RemoteAddr` matters to the limiter). -/
def requestFrom (ip : String) : Request :=
  { authorizationHeader := "", origin := "", method := "GET"
    accessControlRequestMethod := "", remoteAddr := ip, ctxUser := none }

def countAdmitted (cfg : LimiterConfig) (ip : String) :
    PipelineState → List ℚ → Nat
  | _, [] => 0
  | s, now :: rest =>
    match rateLimit cfg now admittedProbe (requestFrom ip) s with
    | (.response resp, s') =>
      (if resp = preflightOKResponse then 1 else 0) + countAdmitted cfg ip s' rest
    | (.panicked _, s') => countAdmitted cfg ip s' rest

/-! ## Concrete fixtures used to evaluate the theorems -/

def emptyPipelineState : PipelineState :=
  { clients := [], totalRequestsReceived := 0, totalResponsesSent := 0
    totalResponsesSentByStatus := [], totalProcessingTimeMicroseconds := 0
    getForTokenCalls := 0 }

/-- A credential store with no matching rows. -/
def noUserStore : String → String → Except DbErr User := fun _ _ => .error .recordNotFound

/-- A permission store granting `users:view` to every principal. -/
def viewPermStore : Int → Except DbErr (List String) := fun _ => .ok ["users:view"]

/-- A stand-in byte-level hash for evaluating the token model at
concrete inputs. -/
def probeHash : String → List Nat := fun str => [str.utf8ByteSize]

/-! # Theorems -/

/-! ## C9: absent Authorization header -/

/-- C9: for every request whose Authorization header is absent,
`authenticate` attaches the anonymous principal to the request context
and forwards the request to the next stage; no error response is
produced and the store is untouched. -/
theorem C9_absent_header_proceeds_anonymous
    (store : String → String → Except DbErr User) (next : Handler)
    (r : Request) (s : PipelineState) (h : r.authorizationHeader = "") :
    authenticate store next r s = next (contextSetUser r .anonymousUser) s := by
  unfold authenticate
  simp [h]

/-- C9 witness: a concrete header-less request reaches the probe
handler as the anonymous principal. -/
theorem C9_witness :
    authenticate noUserStore admittedProbe (requestFrom "10.0.0.7") emptyPipelineState
      = (.response preflightOKResponse, emptyPipelineState) := by
  rw [C9_absent_header_proceeds_anonymous noUserStore admittedProbe
    (requestFrom "10.0.0.7") emptyPipelineState rfl]
  rfl

/-! ## C2: malformed Authorization header -/

/-- C2: for every request whose Authorization header is present but
malformed — wrong part count, wrong scheme, or a token failing the
fixed-length format check — `authenticate` responds with the invalid
credential outcome (401) and the result is independent of the store,
with the state (in particular the `GetForToken` call counter)
unchanged. -/
theorem C2_malformed_header_rejected_without_store
    (store : String → String → Except DbErr User) (next : Handler)
    (r : Request) (s : PipelineState)
    (hne : r.authorizationHeader ≠ "")
    (hbad : (stringsSplit r.authorizationHeader ' ').length ≠ 2
      ∨ (stringsSplit r.authorizationHeader ' ').getD 0 "" ≠ "Bearer"
      ∨ (ValidateTokenPlaintext Validator.new
          ((stringsSplit r.authorizationHeader ' ').getD 1 "")).isValid = false) :
    authenticate store next r s = (.response invalidAuthenticationTokenResponse, s) := by
  unfold authenticate
  rw [if_neg hne]
  rcases hbad with h1 | h2 | h3
  · rw [if_pos (Or.inl h1)]
  · rw [if_pos (Or.inr h2)]
  · by_cases hm : (stringsSplit r.authorizationHeader ' ').length ≠ 2
        ∨ (stringsSplit r.authorizationHeader ' ').getD 0 "" ≠ "Bearer"
    · rw [if_pos hm]
    · rw [if_neg hm, if_pos h3]

/-- C2 witness: three concrete malformed headers — wrong scheme, extra
parts, and a short Bearer token — are all rejected with no store call. -/
theorem C2_witness :
    authenticate noUserStore admittedProbe
        { requestFrom "10.0.0.7" with authorizationHeader := "Basic abc" } emptyPipelineState
      = (.response invalidAuthenticationTokenResponse, emptyPipelineState)
    ∧ authenticate noUserStore admittedProbe
        { requestFrom "10.0.0.7" with authorizationHeader := "Bearer a b" } emptyPipelineState
      = (.response invalidAuthenticationTokenResponse, emptyPipelineState)
    ∧ authenticate noUserStore admittedProbe
        { requestFrom "10.0.0.7" with authorizationHeader := "Bearer short" } emptyPipelineState
      = (.response invalidAuthenticationTokenResponse, emptyPipelineState) :=
  ⟨C2_malformed_header_rejected_without_store _ _ _ _ (by decide)
      (Or.inr (Or.inl (by decide))),
   C2_malformed_header_rejected_without_store _ _ _ _ (by decide)
      (Or.inl (by decide)),
   C2_malformed_header_rejected_without_store _ _ _ _ (by decide)
      (Or.inr (Or.inr (by decide)))⟩

/-! ## C1: the authorization guard -/

/-- C1: for a request reaching a `requirePermissions(code)`-wrapped
route, the guard checks in order: anonymous principal → 401
authentication required (no store access, no activation check);
inactive principal → 403 inactive account (no store access); otherwise
the permission set is fetched fresh from the permission store and exact
membership of `code` decides: absence → 403 not permitted with the
handler never invoked, presence → the wrapped handler runs. -/
theorem C1_requirePermissions_guard_order
    (permStore : Int → Except DbErr (List String)) (code : String)
    (next : Handler) (r : Request) (s : PipelineState) (u : User)
    (perms : List String) :
    (r.ctxUser = some .anonymousUser →
      requirePermissions permStore code next r s = (.response authenticationRequiredResponse, s))
    ∧ (r.ctxUser = some (.user u) → u.isActive = false →
      requirePermissions permStore code next r s = (.response inactiveAccountResponse, s))
    ∧ (r.ctxUser = some (.user u) → u.isActive = true → permStore u.id = .ok perms →
      ((permissionsIncludes perms code = false →
          requirePermissions permStore code next r s = (.response notPermittedResponse, s))
        ∧ (permissionsIncludes perms code = true →
          requirePermissions permStore code next r s = next r s))) := by
  refine ⟨fun ha => ?_, fun hu hinact => ?_, fun hu hact hperm => ⟨fun hmiss => ?_, fun hmem => ?_⟩⟩
  · simp [requirePermissions, requireActivatedUser, requireAuthenticatedUser, contextGetUser,
      ha, Principal.isAnonymous]
  · simp [requirePermissions, requireActivatedUser, requireAuthenticatedUser, contextGetUser,
      hu, Principal.isAnonymous, Principal.isActive, hinact]
  · simp [requirePermissions, requireActivatedUser, requireAuthenticatedUser, contextGetUser,
      hu, Principal.isAnonymous, Principal.isActive, hact, Principal.id, hperm, hmiss]
  · simp [requirePermissions, requireActivatedUser, requireAuthenticatedUser, contextGetUser,
      hu, Principal.isAnonymous, Principal.isActive, hact, Principal.id, hperm, hmem]

/-- C1 witness: a concrete active principal holding `users:view` reaches
the probe handler, and the same principal is refused `users:delete`. -/
theorem C1_witness :
    requirePermissions viewPermStore "users:view" admittedProbe
        { requestFrom "10.0.0.7" with ctxUser := some (.user ⟨42, true⟩) } emptyPipelineState
      = (.response preflightOKResponse, emptyPipelineState)
    ∧ requirePermissions viewPermStore "users:delete" admittedProbe
        { requestFrom "10.0.0.7" with ctxUser := some (.user ⟨42, true⟩) } emptyPipelineState
      = (.response notPermittedResponse, emptyPipelineState) := by
  constructor
  · rw [((C1_requirePermissions_guard_order viewPermStore "users:view" admittedProbe
      { requestFrom "10.0.0.7" with ctxUser := some (.user ⟨42, true⟩) } emptyPipelineState
      ⟨42, true⟩ ["users:view"]).2.2 rfl rfl rfl).2 (by decide)]
    rfl
  · exact ((C1_requirePermissions_guard_order viewPermStore "users:delete" admittedProbe
      { requestFrom "10.0.0.7" with ctxUser := some (.user ⟨42, true⟩) } emptyPipelineState
      ⟨42, true⟩ ["users:view"]).2.2 rfl rfl rfl).1 (by decide)

/-! ## C8: the background task runner -/

/-- C8: `background(fn)` increments the outstanding count before `fn` is
launched, recovers and logs any panic raised inside `fn` without
letting it escape the goroutine, and decrements the outstanding count
on completion regardless of outcome. -/
theorem C8_background_supervision (s : GoState) (fn : Except String Unit) :
    (background s fn).stateAtLaunch.wg = s.wg + 1
    ∧ (background s fn).finalState.wg = s.wg
    ∧ (background s fn).escapingPanic = none
    ∧ (∀ msg, fn = .error msg →
        (background s fn).finalState.logs = s.logs ++ [backgroundPanicLog msg]) := by
  unfold background backgroundGoroutineBody
  cases fn <;> simp

/-- C8 witness: a goroutine panicking with "boom" leaves the counter
restored, the panic logged, and nothing escaping. -/
theorem C8_witness :
    (background ⟨3, []⟩ (.error "boom")).stateAtLaunch.wg = 4
    ∧ (background ⟨3, []⟩ (.error "boom")).finalState.wg = 3
    ∧ (background ⟨3, []⟩ (.error "boom")).escapingPanic = none
    ∧ (background ⟨3, []⟩ (.error "boom")).finalState.logs = [backgroundPanicLog "boom"] := by
  have h := C8_background_supervision ⟨3, []⟩ (.error "boom")
  exact ⟨h.1, h.2.1, h.2.2.1, by simpa using h.2.2.2 "boom" rfl⟩

/-! ## C6: metrics capture and counters -/

theorem writerRunOps_cons (op : WriterOp) (ops : List WriterOp) (mw : MetricsResponseWriter) :
    writerRunOps (op :: ops) mw = writerRunOps ops (mw.applyOp op) := rfl

/-- Once the header is marked written, no later writer operation changes
the recorded status code. -/
theorem writerRunOps_frozen (ops : List WriterOp) (mw : MetricsResponseWriter)
    (h : mw.headerWritten = true) :
    writerRunOps ops mw = mw := by
  induction ops generalizing mw with
  | nil => rfl
  | cons op rest ih =>
    rw [writerRunOps_cons]
    cases op with
    | writeHeader c =>
      simp only [MetricsResponseWriter.applyOp, MetricsResponseWriter.writeHeader, h]
      rw [if_neg (by simp)]
      exact ih mw h
    | write =>
      simp only [MetricsResponseWriter.applyOp, MetricsResponseWriter.write]
      have : { mw with headerWritten := true } = mw := by
        cases mw; simp_all
      rw [this]
      exact ih mw h

theorem statusCount_bumpStatus (l : List (Nat × Nat)) (c : Nat) :
    statusCount (bumpStatus l c) c = statusCount l c + 1 := by
  induction l with
  | nil => simp [bumpStatus, statusCount]
  | cons kv rest ih =>
    obtain ⟨k, v⟩ := kv
    by_cases hk : k = c
    · simp [bumpStatus, statusCount, hk]
    · simp only [bumpStatus, statusCount, beq_iff_eq, if_neg hk]
      exact ih

/-- C6: the wrapping response writer records only the first status code
written — a later `WriteHeader` or body write leaves the recorded code
unchanged, and a body write before any `WriteHeader` freezes the
default 200 — and, when the inner chain completes with a response
without touching the counters itself, `metrics` increments total
requests received, total responses sent, and the per-status counter of
the recorded code, and adds the elapsed wall-clock time to the running
processing-time total. -/
theorem C6_metrics_first_status_and_counters
    (c : Nat) (rest : List WriterOp) (elapsed : Nat) (next : Handler)
    (r : Request) (s : PipelineState) :
    (writerRunOps (.writeHeader c :: rest) newMetricsResponseWriter).statusCode = c
    ∧ (writerRunOps (.write :: rest) newMetricsResponseWriter).statusCode = 200
    ∧ (∀ resp s2,
        next r { s with totalRequestsReceived := s.totalRequestsReceived + 1 }
            = (.response resp, s2) →
        s2.totalRequestsReceived = s.totalRequestsReceived + 1 →
        s2.totalResponsesSent = s.totalResponsesSent →
        s2.totalResponsesSentByStatus = s.totalResponsesSentByStatus →
        s2.totalProcessingTimeMicroseconds = s.totalProcessingTimeMicroseconds →
        ((metrics elapsed next r s).1 = .response resp
          ∧ (metrics elapsed next r s).2.totalRequestsReceived = s.totalRequestsReceived + 1
          ∧ (metrics elapsed next r s).2.totalResponsesSent = s.totalResponsesSent + 1
          ∧ statusCount (metrics elapsed next r s).2.totalResponsesSentByStatus resp.status
              = statusCount s.totalResponsesSentByStatus resp.status + 1
          ∧ (metrics elapsed next r s).2.totalProcessingTimeMicroseconds
              = s.totalProcessingTimeMicroseconds + elapsed)) := by
  refine ⟨?_, ?_, ?_⟩
  · rw [writerRunOps_cons, writerRunOps_frozen _ _ rfl]
    rfl
  · rw [writerRunOps_cons, writerRunOps_frozen _ _ rfl]
    rfl
  · intro resp s2 hnext h1 h2 h3 h4
    have hm : metrics elapsed next r s =
        (.response resp,
          { s2 with
            totalResponsesSent := s2.totalResponsesSent + 1
            totalResponsesSentByStatus := bumpStatus s2.totalResponsesSentByStatus resp.status
            totalProcessingTimeMicroseconds := s2.totalProcessingTimeMicroseconds + elapsed }) := by
      unfold metrics
      simp only [hnext]
    rw [hm]
    refine ⟨rfl, by simpa using h1, by simpa using h2, ?_, by simpa using h4⟩
    simpa [h3] using statusCount_bumpStatus s.totalResponsesSentByStatus resp.status

/-- C6 witness: a handler that writes 404 then a body — the recorded
code is 404 and every counter advances. -/
theorem C6_witness :
    (writerRunOps [.writeHeader 404, .write] newMetricsResponseWriter).statusCode = 404
    ∧ (writerRunOps [.write, .writeHeader 404] newMetricsResponseWriter).statusCode = 200
    ∧ ((metrics 7 (fun _ st => (.response ⟨404, "not found", false⟩, st))
          (requestFrom "10.0.0.7") emptyPipelineState).1 = .response ⟨404, "not found", false⟩
        ∧ (metrics 7 (fun _ st => (.response ⟨404, "not found", false⟩, st))
          (requestFrom "10.0.0.7") emptyPipelineState).2.totalRequestsReceived = 1
        ∧ (metrics 7 (fun _ st => (.response ⟨404, "not found", false⟩, st))
          (requestFrom "10.0.0.7") emptyPipelineState).2.totalResponsesSent = 1
        ∧ statusCount (metrics 7 (fun _ st => (.response ⟨404, "not found", false⟩, st))
          (requestFrom "10.0.0.7") emptyPipelineState).2.totalResponsesSentByStatus 404 = 1
        ∧ (metrics 7 (fun _ st => (.response ⟨404, "not found", false⟩, st))
          (requestFrom "10.0.0.7") emptyPipelineState).2.totalProcessingTimeMicroseconds = 7) := by
  have h := C6_metrics_first_status_and_counters 404 [.write] 7
    (fun _ st => (.response ⟨404, "not found", false⟩, st))
    (requestFrom "10.0.0.7") emptyPipelineState
  have h3 := h.2.2 ⟨404, "not found", false⟩
    { emptyPipelineState with totalRequestsReceived := 1 } rfl rfl rfl rfl rfl
  exact ⟨h.1, h.2.1, h3.1, h3.2.1, h3.2.2.1, h3.2.2.2.1, h3.2.2.2.2⟩

/-! ## C7: token round-trip -/

/-- C7: a token generated for a principal in the authentication scope
and stored as its SHA-256 hash resolves, when its plaintext is
presented before expiry, via `GetForToken` (which filters on scope and
strict expiry) to the originating principal; after `DeleteAllForUser`
for that principal and scope the same plaintext yields record-not-found.
The stored hash is assumed fresh (the 128 random bits make collisions
with existing rows impossible in the model). -/
theorem C7_token_round_trip (sha256 : String → List Nat) (db : DB) (userID : Int)
    (u : User) (plaintext : String) (now now2 ttl : ℚ)
    (hu : db.users.find? (fun x => x.id == userID) = some u)
    (hfresh : ∀ t ∈ db.tokens, t.hash ≠ sha256 plaintext)
    (hexp : now2 < now + ttl) :
    GetForToken sha256
        (tokenInsert db (generateToken sha256 now plaintext userID ttl ScopeAuthentication))
        ScopeAuthentication plaintext now2
      = .ok u
    ∧ GetForToken sha256
        (deleteAllForUser
          (tokenInsert db (generateToken sha256 now plaintext userID ttl ScopeAuthentication))
          ScopeAuthentication userID)
        ScopeAuthentication plaintext now2
      = .error .recordNotFound := by
  have hnil : db.tokens.filter
      (fun t => t.scope == ScopeAuthentication && t.hash == sha256 plaintext
        && decide (now2 < t.expiresAt)) = [] := by
    rw [List.filter_eq_nil_iff]
    intro t ht
    simp only [Bool.and_eq_true, beq_iff_eq, decide_eq_true_eq, not_and]
    intro hand
    exact absurd hand.2 (hfresh t ht)
  constructor
  · unfold GetForToken tokenInsert generateToken
    simp only [List.filter_append, hnil, List.nil_append, List.filter_cons,
      List.filter_nil]
    rw [if_pos (by simp [hexp])]
    simp only [List.filterMap_cons, hu, List.head?]
  · unfold GetForToken deleteAllForUser tokenInsert generateToken
    simp only [List.filter_append, List.filter_cons, List.filter_nil]
    rw [if_neg (by simp [ScopeAuthentication])]
    have hnil2 : (db.tokens.filter
        (fun t => !(t.scope == ScopeAuthentication && t.userID == userID))).filter
        (fun t => t.scope == ScopeAuthentication && t.hash == sha256 plaintext
          && decide (now2 < t.expiresAt)) = [] := by
      rw [List.filter_eq_nil_iff]
      intro t ht
      simp only [Bool.and_eq_true, beq_iff_eq, decide_eq_true_eq, not_and]
      intro hand
      exact absurd hand.2 (hfresh t (List.mem_of_mem_filter ht))
    simp only [List.append_nil, hnil2, List.filterMap_nil, List.head?]
    rfl

/-- C7 witness: a concrete database with one user — the generated
token's plaintext resolves to that user, and no longer resolves after
revocation. -/
theorem C7_witness :
    GetForToken probeHash
        (tokenInsert ⟨[⟨42, true⟩], []⟩
          (generateToken probeHash 10 "sampletoken" 42 24 ScopeAuthentication))
        ScopeAuthentication "sampletoken" 20
      = .ok ⟨42, true⟩
    ∧ GetForToken probeHash
        (deleteAllForUser
          (tokenInsert ⟨[⟨42, true⟩], []⟩
            (generateToken probeHash 10 "sampletoken" 42 24 ScopeAuthentication))
          ScopeAuthentication 42)
        ScopeAuthentication "sampletoken" 20
      = .error .recordNotFound :=
  C7_token_round_trip probeHash ⟨[⟨42, true⟩], []⟩ 42 ⟨42, true⟩ "sampletoken" 10 20 24
    (by decide) (by simp) (by norm_num)

/-! ## C4: graceful shutdown -/

/-- Once `srv.Shutdown` has reported a grace-window error and `serve`
returned it, no continuation of the execution reports success. -/
theorem serveReach_error_final (n : Nat) (s : ServeState)
    (h : ServeReach ⟨.returned (some .deadlineExceeded), n⟩ s) :
    s.phase = .returned (some .deadlineExceeded) := by
  induction h with
  | refl => rfl
  | tail _ step ih =>
    cases step <;> simp_all

/-- C4: from any execution of `serve` starting in the listening phase,
the success return (`Stopped`) is reached only with the background
outstanding count at zero — every registered task has deregistered and
the listener shutdown completed inside the grace window — and once the
grace window has elapsed first, the execution has returned the shutdown
error and never reaches the success return. -/
theorem C4_serve_returns_after_drain :
    (∀ (k : Nat) (s : ServeState), ServeReach ⟨.listening, k⟩ s →
      s.phase = .returned none → s.outstanding = 0)
    ∧ (∀ (n : Nat) (s : ServeState),
        ServeReach ⟨.returned (some .deadlineExceeded), n⟩ s →
      s.phase ≠ .returned none) := by
  constructor
  · intro k s h
    induction h with
    | refl => simp
    | tail _ step ih =>
      cases step <;> simp_all
  · intro n s h
    rw [serveReach_error_final n s h]
    simp

/-- C4 witness: a concrete execution — signal with one task
outstanding, listener drained, task deregisters, then success — and a
concrete errored state that stays errored. -/
theorem C4_witness :
    (⟨.returned none, 0⟩ : ServeState).outstanding = 0
    ∧ (⟨.returned (some .deadlineExceeded), 2⟩ : ServeState).phase
        ≠ .returned none := by
  constructor
  · exact C4_serve_returns_after_drain.1 1 ⟨.returned none, 0⟩
      (.tail (.tail (.tail (.tail (.refl _) (.signal 1)) (.shutdownOk 1))
        (.taskDone .waitingTasks 0)) .finish) rfl
  · exact C4_serve_returns_after_drain.2 2 ⟨.returned (some .deadlineExceeded), 2⟩
      (.refl _)

/-! ## C5: the limiter never over-admits beyond burst -/

theorem lookupClient_setClient_self (l : List (String × ClientEntry))
    (ip : String) (e : ClientEntry) :
    lookupClient (setClient l ip e) ip = some e := by
  induction l with
  | nil => simp [setClient, lookupClient]
  | cons kv rest ih =>
    obtain ⟨k, v⟩ := kv
    by_cases hk : k = ip
    · simp [setClient, lookupClient, hk]
    · simp only [setClient, lookupClient, beq_iff_eq, if_neg hk]
      exact ih

/-- With refill rate zero, `Allow` is exactly: consume one token when at
least one is available, otherwise refuse without committing state. -/
theorem RateLimiter.allow_zero_rate (l : RateLimiter) (now : ℚ)
    (h0 : l.limit = 0) (hle : l.tokens ≤ (l.burst : ℚ)) :
    l.allow now =
      if 1 ≤ l.tokens then (true, { l with tokens := l.tokens - 1, lastEvent := now })
      else (false, l) := by
  unfold RateLimiter.allow RateLimiter.advancedTokens
  rw [h0, mul_zero, add_zero, min_eq_right hle]

/-- The critical section on a fresh identity: creates a full bucket,
then admits iff the burst capacity covers one token. -/
theorem rateLimitAdmit_fresh (cfg : LimiterConfig) (now : ℚ) (ip : String)
    (clients : List (String × ClientEntry)) (hrps : cfg.rps = 0)
    (hnone : lookupClient clients ip = none) :
    rateLimitAdmit cfg now ip clients =
      if 1 ≤ (cfg.burst : ℚ) then
        (true, setClient clients ip ⟨⟨0, cfg.burst, (cfg.burst : ℚ) - 1, now⟩, now⟩)
      else
        (false, setClient clients ip ⟨⟨0, cfg.burst, (cfg.burst : ℚ), now⟩, now⟩) := by
  unfold rateLimitAdmit
  rw [hnone]
  simp only [RateLimiter.new, hrps]
  rw [RateLimiter.allow_zero_rate ⟨0, cfg.burst, (cfg.burst : ℚ), now⟩ now rfl le_rfl]
  by_cases h1 : 1 ≤ (cfg.burst : ℚ)
  · rw [if_pos h1, if_pos h1]
  · rw [if_neg h1, if_neg h1]

/-- The critical section on a known identity with a zero-rate bucket. -/
theorem rateLimitAdmit_known (cfg : LimiterConfig) (now : ℚ) (ip : String)
    (clients : List (String × ClientEntry)) (e : ClientEntry)
    (hsome : lookupClient clients ip = some e) (hlim : e.limiter.limit = 0)
    (htok : e.limiter.tokens ≤ (e.limiter.burst : ℚ)) :
    rateLimitAdmit cfg now ip clients =
      if 1 ≤ e.limiter.tokens then
        (true, setClient clients ip
          ⟨{ e.limiter with tokens := e.limiter.tokens - 1, lastEvent := now }, now⟩)
      else
        (false, setClient clients ip ⟨e.limiter, now⟩) := by
  unfold rateLimitAdmit
  rw [hsome]
  simp only
  rw [RateLimiter.allow_zero_rate e.limiter now hlim htok]
  by_cases h1 : 1 ≤ e.limiter.tokens
  · rw [if_pos h1, if_pos h1]
  · rw [if_neg h1, if_neg h1]

/-- The invariant carried through a sequence of admission checks from a
single identity with refill rate zero: the admitted count never exceeds
the tokens remaining in (or about to be granted to) that identity's
bucket. -/
theorem countAdmitted_bound (cfg : LimiterConfig) (hen : cfg.enabled = true)
    (hrps : cfg.rps = 0) (ip : String) (times : List ℚ) :
    ∀ (s : PipelineState) (t : ℚ), 0 ≤ t → t ≤ (cfg.burst : ℚ) →
      ((lookupClient s.clients ip = none ∧ t = (cfg.burst : ℚ))
        ∨ (∃ e, lookupClient s.clients ip = some e ∧ e.limiter.limit = 0
            ∧ e.limiter.burst = cfg.burst ∧ e.limiter.tokens = t)) →
      (countAdmitted cfg ip s times : ℚ) ≤ t := by
  induction times with
  | nil =>
    intro s t h0 _ _
    simpa [countAdmitted] using h0
  | cons now rest ih =>
    intro s t h0 hB hinv
    obtain ⟨lastEv, hstep⟩ : ∃ lastEv, rateLimitAdmit cfg now ip s.clients =
        if 1 ≤ t then
          (true, setClient s.clients ip ⟨⟨0, cfg.burst, t - 1, now⟩, now⟩)
        else
          (false, setClient s.clients ip ⟨⟨0, cfg.burst, t, lastEv⟩, now⟩) := by
      rcases hinv with ⟨hnone, ht⟩ | ⟨e, hsome, hlim, hburst, htok⟩
      · exact ⟨now, by rw [rateLimitAdmit_fresh cfg now ip s.clients hrps hnone, ht]⟩
      · refine ⟨e.limiter.lastEvent, ?_⟩
        rw [rateLimitAdmit_known cfg now ip s.clients e hsome hlim
          (by rw [htok, hburst]; exact hB)]
        obtain ⟨lim, seen⟩ := e
        obtain ⟨a, b, c, d⟩ := lim
        simp only at hlim hburst htok
        subst hlim hburst htok
        simp
    by_cases h1 : 1 ≤ t
    · have hrl : rateLimit cfg now admittedProbe (requestFrom ip) s =
          (.response preflightOKResponse,
            { s with clients := setClient s.clients ip ⟨⟨0, cfg.burst, t - 1, now⟩, now⟩ }) := by
        unfold rateLimit
        rw [hen]
        simp only [requestFrom, if_true, hstep, if_pos h1, admittedProbe]
      have hone : (if preflightOKResponse = preflightOKResponse then (1 : ℕ) else 0) = 1 := by
        simp
      rw [countAdmitted]
      simp only [hrl, hone]
      have hrec := ih { s with clients := setClient s.clients ip ⟨⟨0, cfg.burst, t - 1, now⟩, now⟩ }
        (t - 1) (by linarith) (by linarith)
        (Or.inr ⟨⟨⟨0, cfg.burst, t - 1, now⟩, now⟩, lookupClient_setClient_self _ _ _, rfl, rfl, rfl⟩)
      push_cast
      push_cast at hrec
      linarith
    · have hrl : rateLimit cfg now admittedProbe (requestFrom ip) s =
          (.response rateLimitExceededResponse,
            { s with clients := setClient s.clients ip ⟨⟨0, cfg.burst, t, lastEv⟩, now⟩ }) := by
        unfold rateLimit
        rw [hen]
        simp only [requestFrom, if_true, hstep, if_neg h1]
        simp
      have hzero : (if rateLimitExceededResponse = preflightOKResponse then (1 : ℕ) else 0) = 0 := by
        simp [rateLimitExceededResponse, preflightOKResponse]
      rw [countAdmitted]
      simp only [hrl, hzero, zero_add]
      exact ih { s with clients := setClient s.clients ip ⟨⟨0, cfg.burst, t, lastEv⟩, now⟩ }
        t h0 hB
        (Or.inr ⟨⟨⟨0, cfg.burst, t, lastEv⟩, now⟩, lookupClient_setClient_self _ _ _, rfl, rfl, rfl⟩)

/-- C5: with the limiter enabled, burst capacity `B` and refill rate
zero, any sequence of admission checks from one identity — hence, the
critical section being mutex-protected, any concurrent batch of N
requests in any interleaving — admits at most `B` requests in
aggregate. -/
theorem C5_no_overadmission_beyond_burst (cfg : LimiterConfig) (ip : String)
    (times : List ℚ) (s : PipelineState) (hen : cfg.enabled = true)
    (hrps : cfg.rps = 0) (hfresh : lookupClient s.clients ip = none) :
    countAdmitted cfg ip s times ≤ cfg.burst := by
  have h := countAdmitted_bound cfg hen hrps ip times s (cfg.burst : ℚ)
    (by positivity) le_rfl (Or.inl ⟨hfresh, rfl⟩)
  exact_mod_cast h

/-- C5 witness: burst 2, rate 0 — four rapid requests from one address
admit at most two. -/
theorem C5_witness :
    countAdmitted ⟨true, 0, 2⟩ "10.0.0.7" emptyPipelineState [0, 0, 0, 0] ≤ 2 :=
  C5_no_overadmission_beyond_burst ⟨true, 0, 2⟩ "10.0.0.7" [0, 0, 0, 0]
    emptyPipelineState rfl rfl rfl

/-! ## Congruence of the pipeline stages in their inner handler

`authenticate` invokes its inner handler only on requests whose context
carries a principal; every other stage is a plain congruence.  Together
these show the composed pipeline's behaviour depends on the router only
at principal-populated requests. -/

theorem authenticate_agree (store : String → String → Except DbErr User)
    (h1 h2 : Handler)
    (hag : ∀ r s, r.ctxUser.isSome = true → h1 r s = h2 r s)
    (r : Request) (s : PipelineState) :
    authenticate store h1 r s = authenticate store h2 r s := by
  simp only [authenticate]
  by_cases he : r.authorizationHeader = ""
  · simp only [if_pos he]
    exact hag _ _ rfl
  · simp only [if_neg he]
    by_cases hm : (stringsSplit r.authorizationHeader ' ').length ≠ 2
        ∨ (stringsSplit r.authorizationHeader ' ').getD 0 "" ≠ "Bearer"
    · simp only [if_pos hm]
    · simp only [if_neg hm]
      by_cases hv : (ValidateTokenPlaintext Validator.new
          ((stringsSplit r.authorizationHeader ' ').getD 1 "")).isValid = false
      · simp only [if_pos hv]
      · simp only [if_neg hv]
        cases hstore : store ScopeAuthentication
            ((stringsSplit r.authorizationHeader ' ').getD 1 "") with
        | error e => cases e <;> simp [hstore]
        | ok user =>
          simp only [hstore]
          exact hag _ _ rfl

theorem rateLimit_congr (cfg : LimiterConfig) (now : ℚ) (h1 h2 : Handler)
    (hag : ∀ r s, h1 r s = h2 r s) (r : Request) (s : PipelineState) :
    rateLimit cfg now h1 r s = rateLimit cfg now h2 r s := by
  simp only [rateLimit]
  by_cases he : cfg.enabled = true
  · simp only [he, if_true]
    cases hrefuse : rateLimitAdmit cfg now r.remoteAddr s.clients with
    | mk allowed clients =>
      cases allowed
      · simp
      · simp only [if_true]
        exact hag _ _
  · simp only [he, if_false]
    exact hag _ _

theorem metrics_congr (elapsed : Nat) (h1 h2 : Handler)
    (hag : ∀ r s, h1 r s = h2 r s) (r : Request) (s : PipelineState) :
    metrics elapsed h1 r s = metrics elapsed h2 r s := by
  unfold metrics
  simp only [hag]

theorem enableCORS_congr (trustedOrigins : List String) (h1 h2 : Handler)
    (hag : ∀ r s, h1 r s = h2 r s) (r : Request) (s : PipelineState) :
    enableCORS trustedOrigins h1 r s = enableCORS trustedOrigins h2 r s := by
  unfold enableCORS
  by_cases hc : r.origin ≠ "" ∧ trustedOrigins.contains r.origin
      ∧ r.method = "OPTIONS" ∧ r.accessControlRequestMethod ≠ ""
  · rw [if_pos hc, if_pos hc]
  · rw [if_neg hc, if_neg hc]
    exact hag _ _

theorem recoverPanic_congr (h1 h2 : Handler)
    (hag : ∀ r s, h1 r s = h2 r s) (r : Request) (s : PipelineState) :
    recoverPanic h1 r s = recoverPanic h2 r s := by
  unfold recoverPanic
  rw [hag]

/-- The composed pipeline's result depends on the router only at
requests whose context has been populated with a principal. -/
theorem routes_agree (cfg : LimiterConfig) (trustedOrigins : List String)
    (store : String → String → Except DbErr User) (now : ℚ) (elapsed : Nat)
    (h1 h2 : Handler)
    (hag : ∀ r s, r.ctxUser.isSome = true → h1 r s = h2 r s)
    (r : Request) (s : PipelineState) :
    routes cfg trustedOrigins store now elapsed h1 r s
      = routes cfg trustedOrigins store now elapsed h2 r s := by
  unfold routes
  exact recoverPanic_congr _ _
    (enableCORS_congr trustedOrigins _ _
      (metrics_congr elapsed _ _
        (rateLimit_congr cfg now _ _
          (authenticate_agree store h1 h2 hag))))
    r s

/-! ## C3: the fixed middleware order of routes() -/

/-- C3: the pipeline composed by `routes()` —
`recoverPanic ∘ enableCORS ∘ metrics ∘ rateLimit ∘ authenticate ∘ router`
— behaves per that fixed order on every request: (i) Recovery is
outermost, so no panic from any later stage escapes, and (ii) a panic
below it becomes the 500 response with `Connection: close`; (iii) a
trusted-origin preflight short-circuits in CORS, leaving the metrics
counters, the limiter map and the credential store untouched and never
reaching the router; (iv) Metrics wraps the limiter, so a limiter
rejection is fully accounted (request counted, 429 response counted,
elapsed time added) while Authentication never runs
(`getForTokenCalls` unchanged) — the Limiter precedes Authentication;
(v) Authentication precedes dispatch: the pipeline's behaviour depends
on the router only at requests whose context holds a principal. -/
theorem C3_pipeline_fixed_order (cfg : LimiterConfig) (trusted : List String)
    (store : String → String → Except DbErr User) (now : ℚ) (elapsed : Nat) :
    (∀ (router : Handler) (r : Request) (s : PipelineState),
      ((routes cfg trusted store now elapsed router r s).1).isPanicked = false)
    ∧ (∀ (router : Handler) (r : Request) (s : PipelineState) (msg : String)
        (s2 : PipelineState),
        enableCORS trusted (metrics elapsed (rateLimit cfg now
          (authenticate store router))) r s = (.panicked msg, s2) →
        routes cfg trusted store now elapsed router r s
          = (.response { serverErrorResponse with connectionClose := true }, s2))
    ∧ (∀ (router : Handler) (r : Request) (s : PipelineState),
        r.origin ≠ "" → trusted.contains r.origin = true → r.method = "OPTIONS" →
        r.accessControlRequestMethod ≠ "" →
        routes cfg trusted store now elapsed router r s
          = (.response preflightOKResponse, s))
    ∧ (∀ (router : Handler) (r : Request) (s : PipelineState),
        ¬(r.origin ≠ "" ∧ trusted.contains r.origin ∧ r.method = "OPTIONS"
          ∧ r.accessControlRequestMethod ≠ "") →
        cfg.enabled = true →
        (rateLimitAdmit cfg now r.remoteAddr s.clients).1 = false →
        routes cfg trusted store now elapsed router r s
          = (.response rateLimitExceededResponse,
              { s with
                clients := (rateLimitAdmit cfg now r.remoteAddr s.clients).2
                totalRequestsReceived := s.totalRequestsReceived + 1
                totalResponsesSent := s.totalResponsesSent + 1
                totalResponsesSentByStatus := bumpStatus s.totalResponsesSentByStatus 429
                totalProcessingTimeMicroseconds :=
                  s.totalProcessingTimeMicroseconds + elapsed }))
    ∧ (∀ (h1 h2 : Handler) (r : Request) (s : PipelineState),
        (∀ r' s', r'.ctxUser.isSome = true → h1 r' s' = h2 r' s') →
        routes cfg trusted store now elapsed h1 r s
          = routes cfg trusted store now elapsed h2 r s) := by
  refine ⟨?_, ?_, ?_, ?_, ?_⟩
  · intro router r s
    unfold routes recoverPanic
    rcases hres : enableCORS trusted (metrics elapsed (rateLimit cfg now
      (authenticate store router))) r s with ⟨res, s2⟩
    cases res <;> rfl
  · intro router r s msg s2 h
    unfold routes recoverPanic
    rw [h]
  · intro router r s h1 h2 h3 h4
    have hcors : enableCORS trusted (metrics elapsed (rateLimit cfg now
        (authenticate store router))) r s = (.response preflightOKResponse, s) := by
      unfold enableCORS
      rw [if_pos ⟨h1, h2, h3, h4⟩]
    unfold routes recoverPanic
    rw [hcors]
  · intro router r s hnc hen hfalse
    have hrefuse : rateLimitAdmit cfg now r.remoteAddr s.clients
        = (false, (rateLimitAdmit cfg now r.remoteAddr s.clients).2) := by
      rw [← hfalse]
    have hrl : rateLimit cfg now (authenticate store router) r
        { s with totalRequestsReceived := s.totalRequestsReceived + 1 }
        = (.response rateLimitExceededResponse,
            { s with
              totalRequestsReceived := s.totalRequestsReceived + 1
              clients := (rateLimitAdmit cfg now r.remoteAddr s.clients).2 }) := by
      unfold rateLimit
      rw [hen]
      simp only [if_true]
      rw [hrefuse]
      simp
    have hmet : metrics elapsed (rateLimit cfg now (authenticate store router)) r s
        = (.response rateLimitExceededResponse,
            { s with
              clients := (rateLimitAdmit cfg now r.remoteAddr s.clients).2
              totalRequestsReceived := s.totalRequestsReceived + 1
              totalResponsesSent := s.totalResponsesSent + 1
              totalResponsesSentByStatus := bumpStatus s.totalResponsesSentByStatus 429
              totalProcessingTimeMicroseconds :=
                s.totalProcessingTimeMicroseconds + elapsed }) := by
      unfold metrics
      simp only [hrl]
      rfl
    have hcors : enableCORS trusted (metrics elapsed (rateLimit cfg now
        (authenticate store router))) r s
        = (.response rateLimitExceededResponse,
            { s with
              clients := (rateLimitAdmit cfg now r.remoteAddr s.clients).2
              totalRequestsReceived := s.totalRequestsReceived + 1
              totalResponsesSent := s.totalResponsesSent + 1
              totalResponsesSentByStatus := bumpStatus s.totalResponsesSentByStatus 429
              totalProcessingTimeMicroseconds :=
                s.totalProcessingTimeMicroseconds + elapsed }) := by
      unfold enableCORS
      rw [if_neg hnc]
      exact hmet
    unfold routes recoverPanic
    rw [hcors]
  · intro h1 h2 r s hag
    exact routes_agree cfg trusted store now elapsed h1 h2 hag r s

/-- C3 witness: a concrete trusted-origin preflight short-circuits with
the state untouched, and a concrete limiter rejection (burst 0) is
fully accounted by metrics with no credential-store call. -/
theorem C3_witness :
    routes ⟨true, 0, 0⟩ ["http://localhost:3000"] noUserStore 0 5 admittedProbe
        { requestFrom "10.0.0.7" with
          origin := "http://localhost:3000", method := "OPTIONS"
          accessControlRequestMethod := "PUT" }
        emptyPipelineState
      = (.response preflightOKResponse, emptyPipelineState)
    ∧ routes ⟨true, 0, 0⟩ ["http://localhost:3000"] noUserStore 0 5 admittedProbe
        (requestFrom "10.0.0.7") emptyPipelineState
      = (.response rateLimitExceededResponse,
          { emptyPipelineState with
            clients := (rateLimitAdmit ⟨true, 0, 0⟩ 0 "10.0.0.7" []).2
            totalRequestsReceived := 1
            totalResponsesSent := 1
            totalResponsesSentByStatus := bumpStatus [] 429
            totalProcessingTimeMicroseconds := 5 }) := by
  have h := C3_pipeline_fixed_order ⟨true, 0, 0⟩ ["http://localhost:3000"] noUserStore 0 5
  constructor
  · exact h.2.2.1 admittedProbe _ emptyPipelineState (by decide) (by decide) rfl (by decide)
  · exact h.2.2.2.1 admittedProbe (requestFrom "10.0.0.7") emptyPipelineState
      (by decide) rfl
      (by
        rw [rateLimitAdmit_fresh ⟨true, 0, 0⟩ 0 (requestFrom "10.0.0.7").remoteAddr
          emptyPipelineState.clients rfl rfl, if_neg (by norm_num)])

/-! ## C10: the contextGetUser panic branch -/

/-- C10: `contextGetUser` panics (with "missing user value in context")
exactly when the request context holds no principal; through the
composed pipeline this branch is unreachable — replacing the router by
one that panics on a missing principal changes nothing, because
`authenticate` populates the principal on every path that dispatches —
while a guard invoked outside the `authenticate` wrapper does panic. -/
theorem C10_context_panic_unreachable_in_pipeline (cfg : LimiterConfig)
    (trusted : List String) (store : String → String → Except DbErr User)
    (now : ℚ) (elapsed : Nat) :
    (∀ r : Request, r.ctxUser = none →
      contextGetUser r = .error "missing user value in context")
    ∧ (∀ (router : Handler) (r : Request) (s : PipelineState),
        routes cfg trusted store now elapsed router r s
          = routes cfg trusted store now elapsed
              (fun r' s' =>
                match r'.ctxUser with
                | some _ => router r' s'
                | none => (.panicked "missing user value in context", s')) r s)
    ∧ (∀ (next : Handler) (r : Request) (s : PipelineState), r.ctxUser = none →
        requireAuthenticatedUser next r s
          = (.panicked "missing user value in context", s)) := by
  refine ⟨fun r h => ?_, fun router r s => ?_, fun next r s h => ?_⟩
  · unfold contextGetUser
    rw [h]
  · refine routes_agree cfg trusted store now elapsed router _ ?_ r s
    intro r' s' hsome
    cases hc : r'.ctxUser with
    | some p => rfl
    | none => rw [hc] at hsome; simp at hsome
  · unfold requireAuthenticatedUser contextGetUser
    rw [h]

/-- C10 witness: a request with no principal in context — the direct
read panics, and a guard invoked outside the pipeline panics. -/
theorem C10_witness :
    contextGetUser (requestFrom "10.0.0.7")
        = .error "missing user value in context"
    ∧ requireAuthenticatedUser admittedProbe (requestFrom "10.0.0.7") emptyPipelineState
        = (.panicked "missing user value in context", emptyPipelineState) := by
  have h := C10_context_panic_unreachable_in_pipeline ⟨true, 0, 0⟩ [] noUserStore 0 0
  exact ⟨h.1 _ rfl, h.2.2 admittedProbe _ emptyPipelineState rfl⟩

end SalesApi
